import Mathlib

/-!
Verification of the `bao` deployment agent (`bao.py`) against its
natural-language specification.

Python strings are modelled as `List Char`; every operation on them
(`splitlines`, `strip`, `split`, `startswith`, `in`, `replace`, slicing)
is embedded as an executable Lean function.  Stateful parts of the program
(`deploy_app`, `remove_app`, the CLI entry points) are embedded as pure
functions from an explicit environment (an oracle for filesystem checks
and subprocess exit codes) to the list of externally visible events they
perform, a resulting state, and an outcome.
-/

set_option maxRecDepth 100000

namespace Bao

/-- Characters that Python's `str.strip()` removes (ASCII whitespace;
the unicode cases are irrelevant for this program). -/
def pyIsSpace (c : Char) : Bool :=
  c = ' ' || c = '\t' || c = '\n' || c = '\r' || c = '\x0b' || c = '\x0c'

/-- Python `str.strip()`: drop whitespace from both ends. -/
def pyStrip (s : List Char) : List Char :=
  ((s.dropWhile pyIsSpace).reverse.dropWhile pyIsSpace).reverse

/-- Split a character list at every occurrence of `c`; always returns at
least one (possibly empty) piece, like Python `str.split(sep)`. -/
def splitOnChar (c : Char) : List Char → List (List Char)
  | [] => [[]]
  | x :: xs =>
    match splitOnChar c xs with
    | [] => [[]]
    | p :: ps => if x = c then [] :: p :: ps else (x :: p) :: ps

/-- Python `str.splitlines()` for `'\n'`-separated text: like splitting on
`'\n'` but with no empty trailing piece. -/
def pySplitlines (s : List Char) : List (List Char) :=
  let ps := splitOnChar '\n' s
  if ps.getLast? = some [] then ps.dropLast else ps

/-- Split at the first occurrence of `c`, returning the pieces before and
after it, or `none` when `c` does not occur (Python `str.split(sep, 1)`). -/
def splitFirst (c : Char) : List Char → Option (List Char × List Char)
  | [] => none
  | x :: xs =>
    if x = c then some ([], xs)
    else (splitFirst c xs).map (fun p => (x :: p.1, p.2))

/-- Python `sub in s` for strings: `pat` occurs as a contiguous substring. -/
def containsSub (pat : List Char) : List Char → Bool
  | [] => pat.isEmpty
  | c :: cs => pat.isPrefixOf (c :: cs) || containsSub pat cs

/-- Python `s.replace(pat, rep)`: replace every (leftmost, non-overlapping)
occurrence of `pat` by `rep`.  (The program only calls it with non-empty
literal patterns, so the `pat = []` case is left as the identity.) -/
def replaceAll (pat rep s : List Char) : List Char :=
  match pat, s with
  | [], _ => s
  | _, [] => []
  | p :: ps, c :: cs =>
    if (p :: ps).isPrefixOf (c :: cs) then
      rep ++ replaceAll (p :: ps) rep (cs.drop ps.length)
    else
      c :: replaceAll (p :: ps) rep cs
termination_by s.length
decreasing_by
  · simp only [List.length_cons, List.length_drop]
    omega
  · simp only [List.length_cons]
    omega

/-! ## Config Parser: `parse_procfile` (bao.py lines 52-71) -/

/-- Result of running `parse_procfile`:
`ok` returns the dataclass `Procfile(web_cmd=...)`;
`exit1` is the reported validation failure (`logger.info(...)`; `sys.exit(1)`);
`attrError` is the crash `AttributeError: 'NoneType' object has no attribute
'startswith'` reached when no line starts with `web:` and `web_cmd` is still
`None`. -/
inductive ProcResult where
  | ok (web_cmd : List Char)
  | exit1
  | attrError
deriving DecidableEq

/-- Does a line start with the literal `web:` (Python `line.startswith("web:")`)? -/
def isWebLine (line : List Char) : Bool :=
  "web:".data.isPrefixOf line

/-- `line.split(":", maxsplit=1)[-1].strip()`: everything after the first
`':'` (the whole line when there is none), stripped. -/
def extractCmd (line : List Char) : List Char :=
  match splitFirst ':' line with
  | some p => pyStrip p.2
  | none => pyStrip line

/-- The loop of `parse_procfile`: `web_cmd` starts as `None` and is
overwritten by the command of every `web:` line in order, so the last
`web:` line wins. -/
def lastWebCmd (lines : List (List Char)) : Option (List Char) :=
  lines.foldl (fun acc line => if isWebLine line then some (extractCmd line) else acc) none

/-- `parse_procfile(content)` (bao.py lines 57-71). -/
def parse_procfile (content : List Char) : ProcResult :=
  match lastWebCmd (pySplitlines content) with
  | none => ProcResult.attrError
  | some web_cmd =>
    if "python".data.isPrefixOf web_cmd = false then ProcResult.exit1
    else if containsSub "$PORT".data web_cmd = false then ProcResult.exit1
    else ProcResult.ok web_cmd

example : parse_procfile "web: python app.py --port $PORT".data
    = ProcResult.ok "python app.py --port $PORT".data := by decide

example : parse_procfile "worker: python app.py $PORT".data = ProcResult.attrError := by decide

example : parse_procfile "web: python app.py".data = ProcResult.exit1 := by decide

example : parse_procfile "web: gunicorn app $PORT".data = ProcResult.exit1 := by decide

example : parse_procfile "web: python a.py $PORT\nweb: python b.py $PORT".data
    = ProcResult.ok "python b.py $PORT".data := by decide

/-! ## Unit Generator (bao.py lines 27-49 and 74-93) -/

/-- `SYSTEMCTL_RESTART_INTERVAL` (bao.py line 31). -/
def SYSTEMCTL_RESTART_INTERVAL : Nat := 3

/-- `get_systemctl_config(web_cmd, working_directory, description)`
(bao.py lines 35-49).  The Python template begins and ends with a
newline removed by `.strip()`; since its first and last characters after
the interpolations are always `'['` and `'t'`, the stripped form is
embedded directly. -/
def get_systemctl_config (web_cmd working_directory description : List Char) : List Char :=
  "[Unit]\nDescription=".data ++ description ++
  "\n\n[Service]\nAfter=network.target\nRestart=always\nRestartSec=".data ++
  (Nat.repr SYSTEMCTL_RESTART_INTERVAL).data ++
  "\nWorkingDirectory=".data ++ working_directory ++
  "\nExecStart=".data ++ web_cmd ++
  "\n\n[Install]\nWantedBy=default.target".data

/-- The Caddyfile template of `get_app_caddyfile_config` (bao.py lines
78-88), after `.strip()` (which removes its fixed leading and trailing
newline).  Literal braces are written with `\x7b`/`\x7d` escapes. -/
def caddyTemplate : List Char :=
  "\x7bdomain\x7d \x7b\n    reverse_proxy localhost:\x7bport\x7d\n\n    handle_path /static/* \x7b\n        file_server \x7b\n            root \x7bapp_root_src_path\x7d/\x7bstatic_path\x7d\n        \x7d\n    \x7d\n\x7d".data

/-- `get_app_caddyfile_config(domain, app_root_src_path, port, static_path)`
(bao.py lines 74-93): four successive `str.replace` calls on the template,
in source order (domain, app_root_src_path, port, static_path). -/
def get_app_caddyfile_config (domain app_root_src_path : List Char) (port : Nat)
    (static_path : List Char) : List Char :=
  replaceAll "\x7bstatic_path\x7d".data static_path
    (replaceAll "\x7bport\x7d".data (Nat.repr port).data
      (replaceAll "\x7bapp_root_src_path\x7d".data app_root_src_path
        (replaceAll "\x7bdomain\x7d".data domain caddyTemplate)))

/-! ## Paths (bao.py lines 27-32) -/

/-- `APPS_ROOT_PATH = ROOT_PATH / "apps"` with `ROOT_PATH = /home/bao`. -/
def APPS_ROOT_PATH : List Char := "/home/bao/apps".data

/-- `app_path = APPS_ROOT_PATH / app_name`. -/
def appPath (name : List Char) : List Char := APPS_ROOT_PATH ++ '/' :: name

/-- `app_code_path = app_path / "code"`. -/
def appCodePath (name : List Char) : List Char := appPath name ++ "/code".data

/-- `app_code_path / ".venv/bin"` (used to build `ExecStart`). -/
def venvBinPath (name : List Char) : List Char := appCodePath name ++ "/.venv/bin".data

/-! ## Deployment Orchestrator: `deploy_app` (bao.py lines 133-220)

The filesystem and the three external tools are modelled by an
environment `Env` of oracles: one `Bool` per existence test the code
performs, one exit code per subprocess it runs, the parsed content of
`bao.toml`, the text of the process file, and the port returned by
`get_free_port`.  `deploy_app` returns the list of externally visible
actions it performed, in order, together with how the call ended. -/

/-- One entry of `bao.toml`'s `apps` table (`BaoConfigApp`, bao.py 96-100). -/
structure BaoConfigApp where
  domain : List Char
  static : List Char
  procfile : List Char
deriving DecidableEq

/-- A scan-directory entry as seen by `Path.is_symlink` / `Path.is_file`:
either a regular file or a symlink whose target lives inside the app's
own directory `apps/<name>/` (the kind `deploy_app` creates). -/
inductive FsEntry where
  | regular
  | symlinkIntoApp
deriving DecidableEq

/-- Environment of one `deploy_app` run: filesystem answers and
subprocess exit codes, read in program order. -/
structure Env where
  /-- `(app_code_path / "bao.toml").exists()` -/
  baoTomlExists : Bool
  /-- `(app_code_path / "pyproject.toml").exists()` -/
  pyprojectExists : Bool
  /-- the `apps` table of `bao.toml`; `none` models `tomllib.load` or the
  `BaoConfigApp(**d)` construction raising (malformed manifest) -/
  baoToml : Option (List (List Char × BaoConfigApp))
  /-- `(app_code_path / app_config.procfile).exists()` -/
  procfileExists : Bool
  /-- the text read from the process file -/
  procfileContent : List Char
  /-- exit code of `poetry install` -/
  poetryExit : Nat
  /-- exit code of `.venv/bin/python -V` -/
  venvPythonExit : Nat
  /-- `(app_code_path / "package.json").exists()` -/
  packageJsonExists : Bool
  /-- exit code of `yarn install` -/
  yarnExit : Nat
  /-- the port returned by `get_free_port()` -/
  freePort : Nat
  /-- exit code of `systemctl --user enable <unit>` -/
  enableExit : Nat
  /-- state of `CADDYFILES_PATH / app_name` before the run -/
  caddyEntry : Option FsEntry
  /-- exit code of `sudo systemctl reload caddy` -/
  reloadExit : Nat
  /-- exit code of `systemctl --user restart <app>` -/
  restartExit : Nat

/-- Externally visible actions of `deploy_app`, in program order. -/
inductive Event where
  | runPoetryInstall
  | runVenvPython
  | runYarnInstall
  | writeServiceFile (content : List Char)
  | runSystemctlEnable
  | writeCaddyfile (content : List Char)
  | unlinkCaddyEntry
  | symlinkCaddyEntry
  | runCaddyReload
  | runSystemctlRestart
deriving DecidableEq

/-- How a `deploy_app` call ended.  `exit1` outcomes come from
`sys.exit(1)` after a `logger.info`; `Crash` outcomes are uncaught
exceptions; `Fail` outcomes are `CalledProcessError` from `check=True`. -/
inductive DeployResult where
  | ok
  | missingBaoToml
  | missingPyproject
  | tomlCrash
  | unknownApp
  | missingProcfile
  | procfileInvalid
  | procfileCrash
  | poetryFail
  | venvFail
  | yarnFail
  | enableFail
  | symlinkCrash
  | reloadFail
  | restartFail
deriving DecidableEq

/-- Tail of `deploy_app` after the symlink swap (bao.py lines 216-220):
reload caddy (`check=True`), then restart the service (`check=True`);
returns the events of this tail and the final result. -/
def deploy_after_swap (env : Env) : List Event × DeployResult :=
  if env.reloadExit ≠ 0 then ([Event.runCaddyReload], DeployResult.reloadFail)
  else if env.restartExit ≠ 0 then
    ([Event.runCaddyReload, Event.runSystemctlRestart], DeployResult.restartFail)
  else ([Event.runCaddyReload, Event.runSystemctlRestart], DeployResult.ok)

/-- Activation phase of `deploy_app` (bao.py lines 184-220), entered after
config parsing and provisioning succeeded with the resolved `web_cmd`;
`pre` holds the provisioning events already performed. -/
def deploy_activation (name : List Char) (cfg : BaoConfigApp) (web_cmd : List Char)
    (env : Env) (pre : List Event) : List Event × DeployResult :=
  let app_port := env.freePort
  let cmdWithPort := replaceAll "$PORT".data (Nat.repr app_port).data web_cmd
  let unit := get_systemctl_config (venvBinPath name ++ '/' :: cmdWithPort)
    (appCodePath name) (name ++ " configured by bao".data)
  let evs1 := pre ++ [Event.writeServiceFile unit, Event.runSystemctlEnable]
  if env.enableExit ≠ 0 then (evs1, DeployResult.enableFail)
  else
    let caddyCfg := get_app_caddyfile_config cfg.domain (appCodePath name) app_port cfg.static
    let evs2 := evs1 ++ [Event.writeCaddyfile caddyCfg]
    match env.caddyEntry with
    | some FsEntry.regular =>
      -- not a symlink, so not unlinked; `symlink_to` then raises FileExistsError
      (evs2, DeployResult.symlinkCrash)
    | some FsEntry.symlinkIntoApp =>
      ((evs2 ++ [Event.unlinkCaddyEntry]) ++ Event.symlinkCaddyEntry :: (deploy_after_swap env).1,
       (deploy_after_swap env).2)
    | none =>
      (evs2 ++ Event.symlinkCaddyEntry :: (deploy_after_swap env).1,
       (deploy_after_swap env).2)

/-- `deploy_app(app_name)` (bao.py lines 133-220). -/
def deploy_app (name : List Char) (env : Env) : List Event × DeployResult :=
  if env.baoTomlExists = false then ([], DeployResult.missingBaoToml)
  else if env.pyprojectExists = false then ([], DeployResult.missingPyproject)
  else
    match env.baoToml with
    | none => ([], DeployResult.tomlCrash)
    | some apps =>
      match apps.lookup name with
      | none => ([], DeployResult.unknownApp)
      | some cfg =>
        if env.procfileExists = false then ([], DeployResult.missingProcfile)
        else
          match parse_procfile env.procfileContent with
          | ProcResult.exit1 => ([], DeployResult.procfileInvalid)
          | ProcResult.attrError => ([], DeployResult.procfileCrash)
          | ProcResult.ok web_cmd =>
            if env.poetryExit ≠ 0 then ([Event.runPoetryInstall], DeployResult.poetryFail)
            else if env.venvPythonExit ≠ 0 then
              ([Event.runPoetryInstall, Event.runVenvPython], DeployResult.venvFail)
            else if env.packageJsonExists then
              if env.yarnExit ≠ 0 then
                ([Event.runPoetryInstall, Event.runVenvPython, Event.runYarnInstall],
                 DeployResult.yarnFail)
              else
                deploy_activation name cfg web_cmd env
                  [Event.runPoetryInstall, Event.runVenvPython, Event.runYarnInstall]
            else
              deploy_activation name cfg web_cmd env
                [Event.runPoetryInstall, Event.runVenvPython]

/-! ## Teardown: `remove_app` (bao.py lines 223-239)

The on-disk state relevant to `remove_app` is the app directory
`apps/<name>/` (which contains both generated files, the symlink
targets) and the two scan-directory entries
`SYSTEMDFILES_PATH/<name>.service` and `CADDYFILES_PATH/<name>`. -/

/-- Actions of `remove_app`, in program order. -/
inductive REvent where
  | runStop
  | runDisable
  | runCaddyReload
  | rmtreeAppDir
  | unlinkSystemdEntry
  | unlinkCaddyEntry
deriving DecidableEq

/-- On-disk state seen by `remove_app`. -/
structure RemoveFs where
  /-- does `apps/<name>/` exist (it holds the unit and Caddyfile targets)? -/
  appDirExists : Bool
  /-- `SYSTEMDFILES_PATH / f"{app_name}.service"` -/
  systemdEntry : Option FsEntry
  /-- `CADDYFILES_PATH / app_name` -/
  caddyEntry : Option FsEntry
deriving DecidableEq

/-- Exit codes of the three `check=True` subprocesses of `remove_app`. -/
structure RemoveEnv where
  stopExit : Nat
  disableExit : Nat
  reloadExit : Nat
deriving DecidableEq

/-- How a `remove_app` call ended: `ok`, a `CalledProcessError` from one of
the three `check=True` commands, or `shutil.rmtree` raising on a missing
directory. -/
inductive RemoveResult where
  | ok
  | stopFail
  | disableFail
  | reloadFail
  | rmtreeFail
deriving DecidableEq

/-- `Path.is_file()` on a scan-directory entry.  It follows symlinks: a
symlink whose target is inside `apps/<name>/` counts as a file exactly
when that directory still exists. -/
def entryIsFile (appDirExists : Bool) : Option FsEntry → Bool
  | none => false
  | some FsEntry.regular => true
  | some FsEntry.symlinkIntoApp => appDirExists

/-- `remove_app(app_name)` (bao.py lines 223-239).  The `systemctl` calls
are modelled as pure events (whatever pruning systemd itself performs on
`disable` is outside this program); the `files_to_delete` loop runs after
`shutil.rmtree(app_path)`, so its `is_file()` checks see
`appDirExists = false`. -/
def remove_app (env : RemoveEnv) (fs : RemoveFs) :
    List REvent × RemoveFs × RemoveResult :=
  if env.stopExit ≠ 0 then ([REvent.runStop], fs, RemoveResult.stopFail)
  else if env.disableExit ≠ 0 then
    ([REvent.runStop, REvent.runDisable], fs, RemoveResult.disableFail)
  else if env.reloadExit ≠ 0 then
    ([REvent.runStop, REvent.runDisable, REvent.runCaddyReload], fs, RemoveResult.reloadFail)
  else if fs.appDirExists = false then
    -- `shutil.rmtree` raises FileNotFoundError; the loop below is never reached
    ([REvent.runStop, REvent.runDisable, REvent.runCaddyReload], fs, RemoveResult.rmtreeFail)
  else
    let delSystemd := entryIsFile false fs.systemdEntry
    let delCaddy := entryIsFile false fs.caddyEntry
    ([REvent.runStop, REvent.runDisable, REvent.runCaddyReload, REvent.rmtreeAppDir] ++
       (if delSystemd then [REvent.unlinkSystemdEntry] else []) ++
       (if delCaddy then [REvent.unlinkCaddyEntry] else []),
     { appDirExists := false,
       systemdEntry := if delSystemd then none else fs.systemdEntry,
       caddyEntry := if delCaddy then none else fs.caddyEntry },
     RemoveResult.ok)

/-! ## Git Push Gateway: `cmd_git_hook` stdin handling (bao.py lines 397-414) -/

/-- What `cmd_git_hook` does with its standard input after
`lines = list(sys.stdin)`. -/
inductive HookOutcome where
  /-- `lines[0]` raises `IndexError` (empty standard input) -/
  | indexError
  /-- `oldrev, newrev, refname = lines[0].strip().split(" ")` raises
  `ValueError` (the first line does not split into exactly three pieces) -/
  | unpackError (line : List Char)
  /-- the hook continues: `git clone`/`git fetch`/`git reset --hard newrev`,
  then `deploy_app(app_name)` -/
  | proceeds (newrev : List Char)
deriving DecidableEq

/-- The stdin handling of `cmd_git_hook` (bao.py lines 402-406): the first
component records whether the unhandled-input message was printed
(`len(lines) != 1`), the second what happens next. -/
def cmd_git_hook_stdin (lines : List (List Char)) : Bool × HookOutcome :=
  let logged := lines.length != 1
  match lines with
  | [] => (logged, HookOutcome.indexError)
  | l :: _ =>
    match splitOnChar ' ' (pyStrip l) with
    | [_oldrev, newrev, _refname] => (logged, HookOutcome.proceeds newrev)
    | _ => (logged, HookOutcome.unpackError l)

/-! ## Git Push Gateway: `cmd_git_receive_pack` (bao.py lines 364-395) -/

/-- Actions of `cmd_git_receive_pack`, in program order, each carrying the
path (or content) it operates on. -/
inductive GEvent where
  | mkdirApp (path : List Char)
  | gitInitBare (cwd : List Char)
  | writeHookScript (path content : List Char)
  | chmodHook (path : List Char)
  | gitReceivePack (cwd : List Char)
deriving DecidableEq

/-- The generated `post-receive` hook script (bao.py lines 380-386). -/
def hookScript (app_name : List Char) : List Char :=
  "#!/usr/bin/bash\nset -e; set -o pipefail;\ncat | /home/bao/bao.py git-hook ".data ++
    app_name ++ ['\n']

/-- `cmd_git_receive_pack(args)` (bao.py lines 364-395).  `arg` is the raw
`app_name` CLI argument; `repoExists` and `hookExists` answer the two
filesystem tests.  `args.app_name[1:-1]` is modelled as
`(arg.drop 1).dropLast` (Python slicing with both endpoints clamped). -/
def cmd_git_receive_pack (arg : List Char) (repoExists hookExists : Bool) : List GEvent :=
  let app_name := (arg.drop 1).dropLast
  let app_path := appPath app_name
  let hook_path := app_path ++ "/repo/hooks/post-receive".data
  [GEvent.mkdirApp app_path] ++
    (if repoExists then [] else [GEvent.gitInitBare app_path]) ++
    (if hookExists then []
     else [GEvent.writeHookScript hook_path (hookScript app_name), GEvent.chmodHook hook_path]) ++
    [GEvent.gitReceivePack app_path]

/-! ## CLI top level (bao.py lines 433-465)

`args.handle(args)` runs inside `try: ... except: logger.exception("ops")`.
The bare `except:` catches `BaseException`, so it also catches the
`SystemExit` raised by every `sys.exit(1)` and every `CalledProcessError`;
after logging, control falls off the end of the script and the interpreter
exits with status 0. -/

/-- How a CLI handler ended, as seen by the `try`/`except` at the bottom of
the script. -/
inductive HandlerOutcome where
  | normal
  | sysExit (code : Nat)
  | exn
deriving DecidableEq

/-- The process exit status produced by the top level for a handler
outcome: the bare `except:` swallows every exception (including
`SystemExit`), logs `"ops"` and falls through, so the script always
reaches its end and the interpreter exits 0. -/
def bao_main_exit (o : HandlerOutcome) : Nat :=
  match o with
  | HandlerOutcome.normal => 0
  | HandlerOutcome.sysExit _ => 0
  | HandlerOutcome.exn => 0

/-- Which handler outcome each `deploy_app` result produces. -/
def deployHandlerOutcome (r : DeployResult) : HandlerOutcome :=
  match r with
  | DeployResult.ok => HandlerOutcome.normal
  | DeployResult.missingBaoToml => HandlerOutcome.sysExit 1
  | DeployResult.missingPyproject => HandlerOutcome.sysExit 1
  | DeployResult.unknownApp => HandlerOutcome.sysExit 1
  | DeployResult.missingProcfile => HandlerOutcome.sysExit 1
  | DeployResult.procfileInvalid => HandlerOutcome.sysExit 1
  | _ => HandlerOutcome.exn

/-- Outcome of the whole `git-hook` handler: stdin handling first, then
(when it proceeds) `deploy_app`. -/
def git_hook_handler (name : List Char) (lines : List (List Char)) (env : Env) :
    HandlerOutcome :=
  match (cmd_git_hook_stdin lines).2 with
  | HookOutcome.indexError => HandlerOutcome.exn
  | HookOutcome.unpackError _ => HandlerOutcome.exn
  | HookOutcome.proceeds _ => deployHandlerOutcome (deploy_app name env).2

/-! ## A unit-file grammar

Modelled from the spec: "parsed by a unit-file grammar (section headers
in brackets, one `Key=Value` field per line)".  The consuming parser is
the external process supervisor, not part of this repository; the grammar
here follows the spec's description literally: the text is split into
`'\n'`-separated lines, a line starting with `'['` is a section header,
any other line containing `'='` is a field whose key is the part before
the first `'='` and whose value is everything after it. -/

/-- One line of a unit file: `none` for section headers, blank and
malformed lines; `some (key, value)` for a `Key=Value` field. -/
def unitLineKV : List Char → Option (List Char × List Char)
  | [] => none
  | d :: rest => if d = '[' then none else splitFirst '=' (d :: rest)

/-- Parse a unit file into its association list of `Key=Value` fields. -/
def parseUnitFile (t : List Char) : List (List Char × List Char) :=
  (splitOnChar '\n' t).filterMap unitLineKV

/-! ### Lemmas about `splitOnChar` -/

theorem splitOnChar_ne_nil (c : Char) (l : List Char) : splitOnChar c l ≠ [] := by
  cases l with
  | nil => simp [splitOnChar]
  | cons x xs =>
    simp only [splitOnChar]
    cases h : splitOnChar c xs with
    | nil => simp
    | cons p ps => by_cases hx : x = c <;> simp [hx]

theorem splitOnChar_not_mem (c : Char) (l : List Char) (h : c ∉ l) :
    splitOnChar c l = [l] := by
  induction l with
  | nil => rfl
  | cons x xs ih =>
    simp only [List.mem_cons, not_or] at h
    simp only [splitOnChar, ih h.2]
    have hx : x ≠ c := fun he => h.1 he.symm
    simp [hx]

theorem splitOnChar_append_not_mem (c : Char) (xs ys : List Char) (h : c ∉ xs) :
    splitOnChar c (xs ++ ys) = (splitOnChar c ys).modifyHead (fun p => xs ++ p) := by
  induction xs with
  | nil =>
    simp only [List.nil_append]
    cases splitOnChar c ys with
    | nil => rfl
    | cons p ps => simp [List.modifyHead]
  | cons x xs ih =>
    simp only [List.mem_cons, not_or] at h
    have hx : x ≠ c := fun he => h.1 he.symm
    cases hys : splitOnChar c ys with
    | nil => exact absurd hys (splitOnChar_ne_nil c ys)
    | cons q qs =>
      have hxs : splitOnChar c (xs ++ ys) = (xs ++ q) :: qs := by
        rw [ih h.2, hys]
        simp [List.modifyHead]
      rw [List.cons_append, splitOnChar, hxs]
      simp [hx, List.modifyHead]

theorem splitOnChar_cons_self (c : Char) (ys : List Char) :
    splitOnChar c (c :: ys) = [] :: splitOnChar c ys := by
  simp only [splitOnChar]
  cases h : splitOnChar c ys with
  | nil => exact absurd h (splitOnChar_ne_nil c ys)
  | cons p ps => simp

/-- Join lines with a separator character (inverse of `splitOnChar` on
lines that do not contain the separator). -/
def joinWith (c : Char) : List (List Char) → List Char
  | [] => []
  | [l] => l
  | l :: ls => l ++ c :: joinWith c ls

theorem splitOnChar_joinWith (c : Char) :
    ∀ ls : List (List Char), ls ≠ [] → (∀ l ∈ ls, c ∉ l) →
      splitOnChar c (joinWith c ls) = ls := by
  intro ls
  induction ls with
  | nil => intro h; exact absurd rfl h
  | cons l ls ih =>
    intro _ hmem
    cases ls with
    | nil =>
      simp only [joinWith]
      exact splitOnChar_not_mem c l (hmem l (by simp))
    | cons m ms =>
      have h1 : c ∉ l := hmem l (by simp)
      have hrec : splitOnChar c (joinWith c (m :: ms)) = m :: ms :=
        ih (by simp) (fun x hx => hmem x (List.mem_cons_of_mem _ hx))
      calc splitOnChar c (joinWith c (l :: m :: ms))
          = splitOnChar c (l ++ c :: joinWith c (m :: ms)) := rfl
        _ = (splitOnChar c (c :: joinWith c (m :: ms))).modifyHead (fun p => l ++ p) :=
            splitOnChar_append_not_mem c l _ h1
        _ = ([] :: splitOnChar c (joinWith c (m :: ms))).modifyHead (fun p => l ++ p) := by
            rw [splitOnChar_cons_self]
        _ = (l ++ []) :: splitOnChar c (joinWith c (m :: ms)) := by simp [List.modifyHead]
        _ = l :: m :: ms := by rw [hrec, List.append_nil]

/-- The rendered service unit splits into exactly its twelve lines, as
long as none of the three interpolated values contains a newline. -/
theorem get_systemctl_config_lines (cmd wd desc : List Char)
    (hc : '\n' ∉ cmd) (hw : '\n' ∉ wd) (hd : '\n' ∉ desc) :
    splitOnChar '\n' (get_systemctl_config cmd wd desc) =
      ["[Unit]".data, "Description=".data ++ desc, [], "[Service]".data,
       "After=network.target".data, "Restart=always".data, "RestartSec=3".data,
       "WorkingDirectory=".data ++ wd, "ExecStart=".data ++ cmd, [], "[Install]".data,
       "WantedBy=default.target".data] := by
  have hjoin : get_systemctl_config cmd wd desc =
      joinWith '\n'
        ["[Unit]".data, "Description=".data ++ desc, [], "[Service]".data,
         "After=network.target".data, "Restart=always".data, "RestartSec=3".data,
         "WorkingDirectory=".data ++ wd, "ExecStart=".data ++ cmd, [], "[Install]".data,
         "WantedBy=default.target".data] := by
    simp only [get_systemctl_config, joinWith, List.append_assoc]
    rfl
  rw [hjoin]
  apply splitOnChar_joinWith '\n' _ (by simp)
  intro l hl
  simp only [List.mem_cons] at hl
  rcases hl with rfl | rfl | rfl | rfl | rfl | rfl | rfl | rfl | rfl | rfl | rfl | rfl | hl
  · decide
  · simp only [List.mem_append, not_or]
    exact ⟨by decide, hd⟩
  · simp
  · decide
  · decide
  · decide
  · decide
  · simp only [List.mem_append, not_or]
    exact ⟨by decide, hw⟩
  · simp only [List.mem_append, not_or]
    exact ⟨by decide, hc⟩
  · simp
  · decide
  · decide
  · exact absurd hl (List.not_mem_nil l)

/-! ## Claim C9: the service-unit round trip -/

/-- C9 counterexample: the claim quantifies over *every* description
string, but a description containing a newline is split across two lines
by the template, and parsing recovers only its first line.  Here the
description `"a\nb"` comes back as `"a"`. -/
theorem get_systemctl_config_roundtrip_counterexample :
    (parseUnitFile (get_systemctl_config "python app.py".data "/w".data "a\nb".data)).lookup
        "Description".data ≠ some "a\nb".data ∧
    (parseUnitFile (get_systemctl_config "python app.py".data "/w".data "a\nb".data)).lookup
        "Description".data = some "a".data := by
  exact ⟨by decide, by decide⟩

/-- C9 (amended): for every command, working-directory and description
string **containing no newline character**, parsing the text rendered by
`get_systemctl_config` with the unit-file grammar (section headers in
brackets, one `Key=Value` field per line) recovers exactly the
`ExecStart`, `WorkingDirectory` and `Description` values passed in. -/
theorem get_systemctl_config_roundtrip (cmd wd desc : List Char)
    (hc : '\n' ∉ cmd) (hw : '\n' ∉ wd) (hd : '\n' ∉ desc) :
    (parseUnitFile (get_systemctl_config cmd wd desc)).lookup "ExecStart".data = some cmd ∧
    (parseUnitFile (get_systemctl_config cmd wd desc)).lookup "WorkingDirectory".data = some wd ∧
    (parseUnitFile (get_systemctl_config cmd wd desc)).lookup "Description".data = some desc := by
  unfold parseUnitFile
  rw [get_systemctl_config_lines cmd wd desc hc hw hd]
  exact ⟨rfl, rfl, rfl⟩

/-- C9 witness: the round trip at concrete newline-free values. -/
theorem get_systemctl_config_roundtrip_witness :
    '\n' ∉ "python app.py --port 80".data ∧
    '\n' ∉ "/home/bao/apps/demo/code".data ∧
    '\n' ∉ "demo configured by bao".data ∧
    ((parseUnitFile (get_systemctl_config "python app.py --port 80".data
          "/home/bao/apps/demo/code".data "demo configured by bao".data)).lookup
        "ExecStart".data = some "python app.py --port 80".data ∧
      (parseUnitFile (get_systemctl_config "python app.py --port 80".data
          "/home/bao/apps/demo/code".data "demo configured by bao".data)).lookup
        "WorkingDirectory".data = some "/home/bao/apps/demo/code".data ∧
      (parseUnitFile (get_systemctl_config "python app.py --port 80".data
          "/home/bao/apps/demo/code".data "demo configured by bao".data)).lookup
        "Description".data = some "demo configured by bao".data) :=
  ⟨by decide, by decide, by decide,
    get_systemctl_config_roundtrip _ _ _ (by decide) (by decide) (by decide)⟩

/-! ## Claim C5: validation of the process declaration -/

/-- C5: a declaration with no `web:` line reaches
`web_cmd.startswith("python")` while `web_cmd` is still `None` and
crashes with `AttributeError` instead of the reported validation failure
the claim describes; the two other violations (wrong interpreter, missing
`$PORT`) do take the reported `logger.info`/`sys.exit(1)` path. -/
theorem parse_procfile_missing_web_line_crashes :
    parse_procfile "worker: python app.py $PORT".data = ProcResult.attrError ∧
    parse_procfile "".data = ProcResult.attrError ∧
    parse_procfile "web: gunicorn app $PORT".data = ProcResult.exit1 ∧
    parse_procfile "web: python app.py".data = ProcResult.exit1 := by
  exact ⟨by decide, by decide, by decide, by decide⟩

/-! ## Claim C8: the last `web:` line wins -/

/-- The running `web_cmd` accumulator of `parse_procfile` ends up holding
the command of the last `web:` line (or the initial value when there is
none). -/
theorem foldl_web_upd (lines : List (List Char)) :
    ∀ acc : Option (List Char),
      lines.foldl (fun acc line => if isWebLine line then some (extractCmd line) else acc) acc
        = (((lines.filter isWebLine).getLast?).map extractCmd).or acc := by
  induction lines with
  | nil => intro acc; rfl
  | cons l ls ih =>
    intro acc
    simp only [List.foldl_cons]
    rw [ih]
    by_cases hl : isWebLine l
    · rw [List.filter_cons_of_pos hl]
      cases hfs : ls.filter isWebLine with
      | nil => simp [hl, Option.or]
      | cons a as =>
        rw [List.getLast?_cons_cons]
        have hne : (a :: as).getLast? = some ((a :: as).getLast (by simp)) :=
          List.getLast?_eq_getLast_of_ne_nil (by simp)
        rw [hne]
        simp [Option.or]
    · rw [List.filter_cons_of_neg (by simpa using hl)]
      simp [hl]

/-- C8: for every declaration with two or more `web:` lines whose commands
all pass validation, `parse_procfile` returns the command of the last
`web:` line. -/
theorem parse_procfile_last_web_line_wins (content w : List Char)
    (hw : ((pySplitlines content).filter isWebLine).getLast? = some w)
    (_hlen : 2 ≤ ((pySplitlines content).filter isWebLine).length)
    (hv : ∀ l ∈ (pySplitlines content).filter isWebLine,
      "python".data.isPrefixOf (extractCmd l) = true ∧
        containsSub "$PORT".data (extractCmd l) = true) :
    parse_procfile content = ProcResult.ok (extractCmd w) := by
  have hwmem : w ∈ (pySplitlines content).filter isWebLine := by
    obtain ⟨hne, heq⟩ := List.mem_getLast?_eq_getLast (Option.mem_def.mpr hw)
    rw [heq]
    exact List.getLast_mem hne
  obtain ⟨h1, h2⟩ := hv w hwmem
  unfold parse_procfile lastWebCmd
  rw [foldl_web_upd, hw]
  simp [Option.or, h1, h2]

/-- C8 witness: two `web:` lines with different commands; the later one is
returned. -/
theorem parse_procfile_last_web_line_wins_witness :
    parse_procfile "web: python a.py $PORT\nweb: python b.py --flag $PORT".data
      = ProcResult.ok "python b.py --flag $PORT".data :=
  parse_procfile_last_web_line_wins
    "web: python a.py $PORT\nweb: python b.py --flag $PORT".data
    "web: python b.py --flag $PORT".data (by decide) (by decide) (by decide)

/-! ## Claim C1: no external mutation before validation/provisioning succeed -/

/-- Events that mutate supervisor/proxy state, unit/route files or the
scan-directory pointer (the mutations claim C1 is about).  Running the
dependency installer (`poetry`/`yarn`) or the venv interpreter check
touches only the app's own source tree. -/
def isExternalMutation : Event → Bool
  | Event.runPoetryInstall => false
  | Event.runVenvPython => false
  | Event.runYarnInstall => false
  | _ => true

/-- The failure kinds named by claim C1: config-validation failures
(missing manifest, missing dependency declaration, malformed manifest,
unknown app, missing process file, invalid or crashing process
declaration) and the dependency installer exiting nonzero. -/
def isPreActivationFailure : DeployResult → Bool
  | DeployResult.missingBaoToml => true
  | DeployResult.missingPyproject => true
  | DeployResult.tomlCrash => true
  | DeployResult.unknownApp => true
  | DeployResult.missingProcfile => true
  | DeployResult.procfileInvalid => true
  | DeployResult.procfileCrash => true
  | DeployResult.poetryFail => true
  | _ => false

/-- The activation phase never ends in one of the pre-activation failure
kinds. -/
theorem deploy_activation_result_not_early (name : List Char) (cfg : BaoConfigApp)
    (web_cmd : List Char) (env : Env) (pre : List Event) :
    isPreActivationFailure (deploy_activation name cfg web_cmd env pre).2 = false := by
  unfold deploy_activation deploy_after_swap
  repeat' split
  all_goals rfl

/-- C1: whenever `deploy_app` fails during config validation or
environment provisioning, it has performed no external mutation: no
unit/route file write, no supervisor or proxy control command, no
scan-directory pointer change. -/
theorem deploy_app_no_mutation_on_early_failure (name : List Char) (env : Env)
    (h : isPreActivationFailure (deploy_app name env).2 = true) :
    ∀ e ∈ (deploy_app name env).1, isExternalMutation e = false := by
  intro e he
  unfold deploy_app at h he
  revert h he
  repeat' split
  all_goals intro h he
  all_goals simp only [deploy_activation_result_not_early] at h
  all_goals first
    | exact absurd h (by decide)
    | (simp at he; subst he; rfl)
    | simp at he

/-- C1 witness: a deploy with `bao.toml` missing fails validation and its
event trace is empty. -/
theorem deploy_app_no_mutation_on_early_failure_witness :
    isPreActivationFailure (deploy_app "demo".data
        { baoTomlExists := false, pyprojectExists := true, baoToml := some [],
          procfileExists := false, procfileContent := [], poetryExit := 0,
          venvPythonExit := 0, packageJsonExists := false, yarnExit := 0,
          freePort := 40001, enableExit := 0, caddyEntry := none,
          reloadExit := 0, restartExit := 0 }).2 = true ∧
    (∀ e ∈ (deploy_app "demo".data
        { baoTomlExists := false, pyprojectExists := true, baoToml := some [],
          procfileExists := false, procfileContent := [], poetryExit := 0,
          venvPythonExit := 0, packageJsonExists := false, yarnExit := 0,
          freePort := 40001, enableExit := 0, caddyEntry := none,
          reloadExit := 0, restartExit := 0 }).1, isExternalMutation e = false) :=
  ⟨by decide, deploy_app_no_mutation_on_early_failure _ _ (by decide)⟩

/-! ## Claim C2: activation ordering -/

/-- Ordering of the activation phase: whenever the symlink swap occurs,
the route file was fully written strictly before it, the proxy reload
comes strictly after it, and the restart (when it occurs) is the final
event, after the reload. -/
theorem deploy_activation_ordering (name : List Char) (cfg : BaoConfigApp)
    (web_cmd : List Char) (env : Env) (pre0 : List Event)
    (h0 : Event.symlinkCaddyEntry ∉ pre0) (h1 : Event.runCaddyReload ∉ pre0)
    (h2 : Event.runSystemctlRestart ∉ pre0)
    (h : Event.symlinkCaddyEntry ∈ (deploy_activation name cfg web_cmd env pre0).1) :
    ∃ pre post c,
      (deploy_activation name cfg web_cmd env pre0).1
        = pre ++ Event.symlinkCaddyEntry :: post ∧
      Event.symlinkCaddyEntry ∉ pre ∧ Event.symlinkCaddyEntry ∉ post ∧
      Event.writeCaddyfile c ∈ pre ∧
      Event.runCaddyReload ∉ pre ∧ Event.runSystemctlRestart ∉ pre ∧
      (post = [Event.runCaddyReload] ∨
        post = [Event.runCaddyReload, Event.runSystemctlRestart]) := by
  revert h
  unfold deploy_activation deploy_after_swap
  repeat' split
  all_goals intro h
  all_goals first
    | (simp [List.mem_append, h0] at h; done)
    | (refine ⟨_, _,
        get_app_caddyfile_config cfg.domain (appCodePath name) env.freePort cfg.static,
        rfl, ?_, ?_, ?_, ?_, ?_, ?_⟩
       <;> simp [List.mem_append, h0, h1, h2])

/-- C2: in every execution of `deploy_app` in which the activation
pointer is replaced, the route file is fully written before the swap, the
proxy reload happens after the swap, and the service restart (when
reached) is the final step, after the reload. -/
theorem deploy_app_activation_ordering (name : List Char) (env : Env)
    (h : Event.symlinkCaddyEntry ∈ (deploy_app name env).1) :
    ∃ pre post c,
      (deploy_app name env).1 = pre ++ Event.symlinkCaddyEntry :: post ∧
      Event.symlinkCaddyEntry ∉ pre ∧ Event.symlinkCaddyEntry ∉ post ∧
      Event.writeCaddyfile c ∈ pre ∧
      Event.runCaddyReload ∉ pre ∧ Event.runSystemctlRestart ∉ pre ∧
      (post = [Event.runCaddyReload] ∨
        post = [Event.runCaddyReload, Event.runSystemctlRestart]) := by
  revert h
  unfold deploy_app
  repeat' split
  all_goals intro h
  all_goals first
    | exact absurd h (by decide)
    | exact deploy_activation_ordering _ _ _ _ _ (by decide) (by decide) (by decide) h

/-- A fully successful deployment environment for the app `demo`,
used to witness claim C2. -/
def demoEnvOk : Env :=
  { baoTomlExists := true, pyprojectExists := true,
    baoToml := some [("demo".data,
      { domain := "demo.example.com".data, static := "assets".data,
        procfile := "Procfile".data })],
    procfileExists := true,
    procfileContent := "web: python app.py --port $PORT".data,
    poetryExit := 0, venvPythonExit := 0, packageJsonExists := false, yarnExit := 0,
    freePort := 40001, enableExit := 0, caddyEntry := none,
    reloadExit := 0, restartExit := 0 }

/-- C2 witness: a concrete successful deploy reaches the swap, and the
ordering decomposition holds for it. -/
theorem deploy_app_activation_ordering_witness :
    Event.symlinkCaddyEntry ∈ (deploy_app "demo".data demoEnvOk).1 ∧
    (∃ pre post c,
      (deploy_app "demo".data demoEnvOk).1 = pre ++ Event.symlinkCaddyEntry :: post ∧
      Event.symlinkCaddyEntry ∉ pre ∧ Event.symlinkCaddyEntry ∉ post ∧
      Event.writeCaddyfile c ∈ pre ∧
      Event.runCaddyReload ∉ pre ∧ Event.runSystemctlRestart ∉ pre ∧
      (post = [Event.runCaddyReload] ∨
        post = [Event.runCaddyReload, Event.runSystemctlRestart])) :=
  ⟨by decide, deploy_app_activation_ordering _ _ (by decide)⟩

/-! ## Claim C3: remove is not best-effort -/

/-- The event prefix `remove_app` has produced when it ends with each
abort kind (the failing command is the last event; `rmtreeFail` aborts
inside `shutil.rmtree`, before any event of its own). -/
def abortEvents : RemoveResult → List REvent
  | RemoveResult.ok => []
  | RemoveResult.stopFail => [REvent.runStop]
  | RemoveResult.disableFail => [REvent.runStop, REvent.runDisable]
  | RemoveResult.reloadFail => [REvent.runStop, REvent.runDisable, REvent.runCaddyReload]
  | RemoveResult.rmtreeFail => [REvent.runStop, REvent.runDisable, REvent.runCaddyReload]

/-- C3 counterexample: when the very first sub-step (`systemctl --user
stop`) fails, `remove_app` raises out of `subprocess.run(check=True)` and
executes none of the remaining sub-steps — contradicting the claim that
every remaining sub-step still runs best-effort. -/
theorem remove_app_not_best_effort :
    (remove_app { stopExit := 1, disableExit := 0, reloadExit := 0 }
        { appDirExists := true, systemdEntry := none,
          caddyEntry := some FsEntry.symlinkIntoApp }).2.2 = RemoveResult.stopFail ∧
    REvent.runDisable ∉ (remove_app { stopExit := 1, disableExit := 0, reloadExit := 0 }
        { appDirExists := true, systemdEntry := none,
          caddyEntry := some FsEntry.symlinkIntoApp }).1 ∧
    REvent.rmtreeAppDir ∉ (remove_app { stopExit := 1, disableExit := 0, reloadExit := 0 }
        { appDirExists := true, systemdEntry := none,
          caddyEntry := some FsEntry.symlinkIntoApp }).1 :=
  ⟨by decide, by decide, by decide⟩

/-- C3 (amended): when any sub-step of `remove_app` fails, the
`CalledProcessError`/`FileNotFoundError` propagates (it is logged only by
the top-level handler) and the operation aborts immediately: no remaining
sub-step runs and the on-disk state is left untouched. -/
theorem remove_app_aborts_at_first_failure (env : RemoveEnv) (fs : RemoveFs)
    (h : (remove_app env fs).2.2 ≠ RemoveResult.ok) :
    (remove_app env fs).1 = abortEvents (remove_app env fs).2.2 ∧
    (remove_app env fs).2.1 = fs := by
  revert h
  unfold remove_app
  repeat' split
  all_goals intro h
  all_goals simp_all [abortEvents]

/-- C3 witness: the amended claim at a concrete failing remove. -/
theorem remove_app_aborts_at_first_failure_witness :
    (remove_app { stopExit := 0, disableExit := 3, reloadExit := 0 }
        { appDirExists := true, systemdEntry := none,
          caddyEntry := some FsEntry.symlinkIntoApp }).1
      = abortEvents (remove_app { stopExit := 0, disableExit := 3, reloadExit := 0 }
        { appDirExists := true, systemdEntry := none,
          caddyEntry := some FsEntry.symlinkIntoApp }).2.2 ∧
    (remove_app { stopExit := 0, disableExit := 3, reloadExit := 0 }
        { appDirExists := true, systemdEntry := none,
          caddyEntry := some FsEntry.symlinkIntoApp }).2.1
      = { appDirExists := true, systemdEntry := none,
          caddyEntry := some FsEntry.symlinkIntoApp } :=
  remove_app_aborts_at_first_failure _ _ (by decide)

/-! ## Claim C6: the scan-directory pointers after remove -/

/-- C6: after a fully successful `remove_app` on an app whose proxy
scan-directory entry is the symlink `deploy_app` created (its target
inside `apps/<name>/`), the pointer is *not* removed: `shutil.rmtree`
deletes the target first, the subsequent `Path.is_file()` check follows
the now-dangling symlink and returns `False`, so `unlink` is skipped and
the dangling pointer survives. -/
theorem remove_app_leaves_dangling_caddy_pointer :
    (remove_app { stopExit := 0, disableExit := 0, reloadExit := 0 }
        { appDirExists := true, systemdEntry := none,
          caddyEntry := some FsEntry.symlinkIntoApp }).2.2 = RemoveResult.ok ∧
    (remove_app { stopExit := 0, disableExit := 0, reloadExit := 0 }
        { appDirExists := true, systemdEntry := none,
          caddyEntry := some FsEntry.symlinkIntoApp }).2.1.caddyEntry
      = some FsEntry.symlinkIntoApp ∧
    REvent.unlinkCaddyEntry ∉ (remove_app { stopExit := 0, disableExit := 0, reloadExit := 0 }
        { appDirExists := true, systemdEntry := none,
          caddyEntry := some FsEntry.symlinkIntoApp }).1 :=
  ⟨by decide, by decide, by decide⟩

/-! ## Claim C7: git-hook standard-input handling -/

/-- C7 counterexample: on empty standard input the unhandled-input
message is printed, but the handler then crashes with `IndexError` at
`lines[0]` — contradicting the claim that empty input does not crash the
handler. -/
theorem cmd_git_hook_empty_input_crashes :
    (cmd_git_hook_stdin []).2 = HookOutcome.indexError ∧
    (cmd_git_hook_stdin []).1 = true :=
  ⟨by decide, by decide⟩

/-- C7 (amended): input with more or fewer than exactly one line is
logged as unhandled; with at least one line the handler continues
best-effort on the first line and never hits the index error; with zero
lines the logged message is followed by an uncaught `IndexError`. -/
theorem cmd_git_hook_stdin_nonempty_no_index_crash (lines : List (List Char))
    (h : lines ≠ []) :
    (cmd_git_hook_stdin lines).2 ≠ HookOutcome.indexError ∧
    ((cmd_git_hook_stdin lines).1 = true ↔ lines.length ≠ 1) := by
  cases lines with
  | nil => exact absurd rfl h
  | cons l rest =>
    constructor
    · simp only [cmd_git_hook_stdin]
      split <;> simp
    · simp only [cmd_git_hook_stdin]
      split <;> simp [bne_iff_ne, List.length_eq_zero]

/-- C7 witness: two lines of input are logged as unhandled and the
handler does not crash with the index error. -/
theorem cmd_git_hook_stdin_nonempty_no_index_crash_witness :
    ("a b c".data :: ["x".data] : List (List Char)) ≠ [] ∧
    ((cmd_git_hook_stdin ["a b c".data, "x".data]).2 ≠ HookOutcome.indexError ∧
      ((cmd_git_hook_stdin ["a b c".data, "x".data]).1 = true ↔
        (["a b c".data, "x".data] : List (List Char)).length ≠ 1)) :=
  ⟨by decide, cmd_git_hook_stdin_nonempty_no_index_crash _ (by decide)⟩

/-! ## Claim C4: process exit status on failure -/

/-- C4: a `git-hook` invocation whose deploy fails validation (missing
`bao.toml`) still makes the process exit 0: `deploy_app` calls
`sys.exit(1)`, but the bare `except:` at the top level catches the
`SystemExit`, logs `"ops"` and falls through, so the interpreter exits
with status 0 — the git client never observes the failure. -/
theorem bao_cli_exit_zero_despite_failure :
    (deploy_app "demo".data
        { baoTomlExists := false, pyprojectExists := true, baoToml := some [],
          procfileExists := false, procfileContent := [], poetryExit := 0,
          venvPythonExit := 0, packageJsonExists := false, yarnExit := 0,
          freePort := 40001, enableExit := 0, caddyEntry := none,
          reloadExit := 0, restartExit := 0 }).2 = DeployResult.missingBaoToml ∧
    git_hook_handler "demo".data ["old new refs/heads/main".data]
        { baoTomlExists := false, pyprojectExists := true, baoToml := some [],
          procfileExists := false, procfileContent := [], poetryExit := 0,
          venvPythonExit := 0, packageJsonExists := false, yarnExit := 0,
          freePort := 40001, enableExit := 0, caddyEntry := none,
          reloadExit := 0, restartExit := 0 } = HandlerOutcome.sysExit 1 ∧
    bao_main_exit (git_hook_handler "demo".data ["old new refs/heads/main".data]
        { baoTomlExists := false, pyprojectExists := true, baoToml := some [],
          procfileExists := false, procfileContent := [], poetryExit := 0,
          venvPythonExit := 0, packageJsonExists := false, yarnExit := 0,
          freePort := 40001, enableExit := 0, caddyEntry := none,
          reloadExit := 0, restartExit := 0 }) = 0 :=
  ⟨by decide, by decide, by decide⟩

/-! ## Claim C10: quote stripping in `git-receive-pack` -/

/-- C10: the app name `cmd_git_receive_pack` operates on — the directory
it creates, the bare repository location, the hook it installs and the
working directory of `git receive-pack` — is always its raw argument with
the first and last characters removed (`args.app_name[1:-1]`), i.e. the
middle `n - 2` characters of a length-`n` argument, whether or not the
argument was actually quoted. -/
theorem cmd_git_receive_pack_strips_quotes (arg : List Char)
    (repoExists hookExists : Bool) :
    cmd_git_receive_pack arg repoExists hookExists =
      [GEvent.mkdirApp (appPath ((arg.drop 1).dropLast))] ++
        (if repoExists then []
         else [GEvent.gitInitBare (appPath ((arg.drop 1).dropLast))]) ++
        (if hookExists then []
         else [GEvent.writeHookScript
                 (appPath ((arg.drop 1).dropLast) ++ "/repo/hooks/post-receive".data)
                 (hookScript ((arg.drop 1).dropLast)),
               GEvent.chmodHook
                 (appPath ((arg.drop 1).dropLast) ++ "/repo/hooks/post-receive".data)]) ++
        [GEvent.gitReceivePack (appPath ((arg.drop 1).dropLast))] ∧
    (arg.drop 1).dropLast = (arg.drop 1).take (arg.length - 2) ∧
    ((arg.drop 1).dropLast).length = arg.length - 2 := by
  refine ⟨rfl, ?_, ?_⟩
  · rw [List.dropLast_eq_take]
    congr 1
    rw [List.length_drop]
    omega
  · rw [List.length_dropLast, List.length_drop]
    omega

end Bao
